import Mathlib

/-!
# Verification of the oxbow CLI configuration-resolution core

Shallow embedding of `src/cli/src/main.rs`: the `Flags` configuration
snapshot, the location resolver `table_location`, the credential assembler
`storage_options`, and the driver `main` (modelled as `main_run`, which
records the sequence of pipeline events it performs).

The process environment is modelled explicitly as a lookup function
`Env : String → Option String`; the only environment access in the source
is the single `std::env::var("TABLE_LOCATION")` call inside
`table_location`, embedded here as `env_var`.
-/

/-- The process environment: a partial map from variable names to values. -/
def Env : Type := String → Option String

/-- Error type of Rust's `std::env::var`: the variable is not present.
(The `NotUnicode` case does not arise in this string-valued model.) -/
inductive VarError : Type
  | notPresent
deriving DecidableEq, Repr

/-- Embedding of `std::env::var`: look a name up in the process environment,
failing with `VarError.notPresent` when it is unset. -/
def env_var (env : Env) (name : String) : Except VarError String :=
  match env name with
  | none => Except.error VarError.notPresent
  | some v => Except.ok v

/-- The error propagated out of `table_location` by the `?` operator when the
environment variable is unset; the spec names this case `MissingLocation`. -/
inductive ConfigError : Type
  | missingLocation
deriving DecidableEq, Repr

/-- The `Flags` struct from `src/cli/src/main.rs`: the configuration snapshot
parsed from the command line. -/
structure Flags : Type where
  help : Bool
  table : Option String
  tenant : Option String
  clientid : Option String
  clientsecret : Option String
deriving DecidableEq, Repr

/-- The `Default` impl for `Flags` in the source (used by its tests). -/
def Flags.default : Flags :=
  { help := false
  , table := some "s3://test-bucket/table"
  , tenant := none
  , clientid := none
  , clientsecret := none }

/-- Embedding of `table_location`: if `flags.table` is `Some(path)` the path
is returned; otherwise the result of `std::env::var("TABLE_LOCATION")` is
returned, its `VarError` propagated by `?` (mapped into `ConfigError`). -/
def table_location (flags : Flags) (env : Env) : Except ConfigError String :=
  match flags.table with
  | none =>
    match env_var env "TABLE_LOCATION" with
    | Except.error _ => Except.error ConfigError.missingLocation
    | Except.ok v => Except.ok v
  | some path => Except.ok path

/-- `HashMap::insert` on an association-list model of
`HashMap<String, String>`: replace the value when the key is already
present, otherwise add the new entry. Keys stay unique. -/
def mapInsert (m : List (String × String)) (k v : String) :
    List (String × String) :=
  if m.any (fun p => p.1 == k) then
    m.map (fun p => if p.1 == k then (k, v) else p)
  else
    m ++ [(k, v)]

/-- Embedding of `storage_options`: return `None` when any of `clientid`,
`clientsecret`, `tenant` is `None`; otherwise build a map with the three
fixed Azure keys. The source inserts the `Option<String>` fields directly
into a `HashMap<String, String>` (a latent type mismatch); following the
documented intent, each field is unwrapped here after the all-present
check has ruled out `None` (`getD` is only reached with all fields
`some`). -/
def storage_options (flags : Flags) : Option (List (String × String)) :=
  if flags.clientid.isNone || flags.clientsecret.isNone || flags.tenant.isNone then
    none
  else
    let options : List (String × String) := []
    let options := mapInsert options "azure_tenant_id" (flags.tenant.getD "")
    let options := mapInsert options "azure_client_id" (flags.clientid.getD "")
    let options := mapInsert options "azure_client_secret" (flags.clientsecret.getD "")
    some options

/-- `storage_options` as invoked inside a process whose environment is
`env`: the body of the source function performs no environment read, so the
ambient environment is simply unused. -/
def storage_optionsAmbient (flags : Flags) (_env : Env) :
    Option (List (String × String)) :=
  storage_options flags

/-- The pipeline events the driver can perform, in the order it performs
them. -/
inductive Event : Type
  | resolveLocation
  | assembleCredentials
  | convertCall (location : String) (options : Option (List (String × String)))
deriving DecidableEq, Repr

/-- Embedding of the driver `main` (its decision logic after flag parsing):
resolve the location first — `?` makes a resolution error return from
`main` immediately with a non-zero exit status — then assemble credentials,
then call `oxbow::convert` and fail the process if it fails. Returns the
sequence of events performed and whether the process exits successfully. -/
def main_run (flags : Flags) (env : Env)
    (convert : String → Option (List (String × String)) → Bool) :
    List Event × Bool :=
  match table_location flags env with
  | Except.error _ => ([Event.resolveLocation], false)
  | Except.ok location =>
    let options := storage_options flags
    let ok := convert location options
    ([Event.resolveLocation, Event.assembleCredentials,
      Event.convertCall location options], ok)

/-- `table_location` in state-passing form, modelling the `&Flags` borrow:
the body reads `flags.table` and returns the snapshot it was given. -/
def table_location_run (flags : Flags) (env : Env) :
    Except ConfigError String × Flags :=
  match flags.table with
  | none =>
    match env_var env "TABLE_LOCATION" with
    | Except.error _ => (Except.error ConfigError.missingLocation, flags)
    | Except.ok v => (Except.ok v, flags)
  | some path => (Except.ok path, flags)

/-- `storage_options` in state-passing form, modelling the `&Flags` borrow:
the body only reads the three identity fields and returns the snapshot it
was given. -/
def storage_options_run (flags : Flags) :
    Option (List (String × String)) × Flags :=
  if flags.clientid.isNone || flags.clientsecret.isNone || flags.tenant.isNone then
    (none, flags)
  else
    let options : List (String × String) := []
    let options := mapInsert options "azure_tenant_id" (flags.tenant.getD "")
    let options := mapInsert options "azure_client_id" (flags.clientid.getD "")
    let options := mapInsert options "azure_client_secret" (flags.clientsecret.getD "")
    (some options, flags)

/-- An environment in which no variable is set. -/
def envEmpty : Env := fun _ => none

/-- An environment in which only `TABLE_LOCATION` is set, to `v`. -/
def envTable (v : String) : Env :=
  fun name => if name == "TABLE_LOCATION" then some v else none

/-- A conversion collaborator that always succeeds. -/
def convertOk : String → Option (List (String × String)) → Bool :=
  fun _ _ => true

-- ## Theorems, one per claim

/-- C1: for every snapshot in which all three identity fields are present
with values `T`, `C`, `S`, `storage_options` returns exactly the
three-entry mapping `azure_tenant_id ↦ T`, `azure_client_id ↦ C`,
`azure_client_secret ↦ S`, values verbatim, no extra entries. -/
theorem storage_options_complete (flags : Flags) (T C S : String)
    (ht : flags.tenant = some T) (hc : flags.clientid = some C)
    (hs : flags.clientsecret = some S) :
    storage_options flags =
      some [("azure_tenant_id", T), ("azure_client_id", C),
            ("azure_client_secret", S)] := by
  simp [storage_options, ht, hc, hs, mapInsert]

/-- Witness for C1: a concrete snapshot with all three fields present. -/
theorem storage_options_complete_witness :
    storage_options
      { help := false, table := none, tenant := some "t1"
      , clientid := some "c1", clientsecret := some "s1" } =
      some [("azure_tenant_id", "t1"), ("azure_client_id", "c1"),
            ("azure_client_secret", "s1")] :=
  storage_options_complete _ "t1" "c1" "s1" rfl rfl rfl

/-- C2: whenever at least one of the three identity fields is absent
(including all three absent), `storage_options` returns `none`. -/
theorem storage_options_partial_none (flags : Flags)
    (h : flags.tenant = none ∨ flags.clientid = none ∨
         flags.clientsecret = none) :
    storage_options flags = none := by
  rcases h with h | h | h <;> simp [storage_options, h]

/-- Witness for C2: two of three fields present still yields `none`. -/
theorem storage_options_partial_none_witness :
    storage_options
      { help := false, table := none, tenant := some "t1"
      , clientid := some "c1", clientsecret := none } = none :=
  storage_options_partial_none _ (Or.inr (Or.inr rfl))

/-- C3: when the explicit location field is present and non-empty,
`table_location` returns that value unchanged, for every environment. -/
theorem table_location_explicit (flags : Flags) (env : Env) (l : String)
    (hl : flags.table = some l) (_hne : l ≠ "") :
    table_location flags env = Except.ok l := by
  simp [table_location, hl]

/-- Witness for C3: an explicit location wins over a set environment
variable. -/
theorem table_location_explicit_witness :
    table_location
      { help := false, table := some "s3://bucket/table", tenant := none
      , clientid := none, clientsecret := none }
      (envTable "s3://env-bucket/table") = Except.ok "s3://bucket/table" :=
  table_location_explicit _ _ "s3://bucket/table" rfl (by decide)

/-- C4: when the explicit location field is absent and `TABLE_LOCATION`
is set to `V`, `table_location` returns `V`. -/
theorem table_location_env (flags : Flags) (env : Env) (V : String)
    (hl : flags.table = none) (he : env "TABLE_LOCATION" = some V) :
    table_location flags env = Except.ok V := by
  simp [table_location, env_var, hl, he]

/-- Witness for C4: with no explicit location, the environment value is
returned. -/
theorem table_location_env_witness :
    table_location
      { help := false, table := none, tenant := none
      , clientid := none, clientsecret := none }
      (envTable "s3://env-bucket/table") =
      Except.ok "s3://env-bucket/table" :=
  table_location_env _ _ "s3://env-bucket/table" rfl rfl

/-- C5: `table_location` fails with `missingLocation` exactly when the
explicit location is absent and `TABLE_LOCATION` is unset; in every other
case it succeeds. -/
theorem table_location_error_iff (flags : Flags) (env : Env) :
    (table_location flags env = Except.error ConfigError.missingLocation ↔
      flags.table = none ∧ env "TABLE_LOCATION" = none) ∧
    (¬ (flags.table = none ∧ env "TABLE_LOCATION" = none) →
      ∃ v, table_location flags env = Except.ok v) := by
  constructor
  · constructor
    · intro h
      cases ht : flags.table with
      | none =>
        cases he : env "TABLE_LOCATION" with
        | none => exact ⟨rfl, rfl⟩
        | some v => simp [table_location, env_var, ht, he] at h
      | some path => simp [table_location, ht] at h
    · rintro ⟨ht, he⟩
      simp [table_location, env_var, ht, he]
  · intro h
    cases ht : flags.table with
    | none =>
      cases he : env "TABLE_LOCATION" with
      | none => exact absurd ⟨ht, he⟩ h
      | some v => exact ⟨v, by simp [table_location, env_var, ht, he]⟩
    | some path => exact ⟨path, by simp [table_location, ht]⟩

/-- Witness for C5: with no explicit location and an empty environment the
resolver fails with `missingLocation`. -/
theorem table_location_error_iff_witness :
    table_location
      { help := false, table := none, tenant := none
      , clientid := none, clientsecret := none } envEmpty =
      Except.error ConfigError.missingLocation :=
  ((table_location_error_iff _ envEmpty).1).2 ⟨rfl, rfl⟩

/-- C6: the driver resolves the location first; when resolution fails the
process exits with failure having performed only the resolution step —
neither the credential assembler nor the conversion call runs — and any
conversion call in a run implies a prior successful location resolution. -/
theorem main_run_fail_fast (flags : Flags) (env : Env)
    (convert : String → Option (List (String × String)) → Bool) :
    (main_run flags env convert).1.head? = some Event.resolveLocation ∧
    (∀ e, table_location flags env = Except.error e →
      main_run flags env convert = ([Event.resolveLocation], false)) ∧
    (∀ l o, Event.convertCall l o ∈ (main_run flags env convert).1 →
      table_location flags env = Except.ok l ∧ o = storage_options flags) := by
  cases h : table_location flags env with
  | error e =>
    refine ⟨by simp [main_run, h], fun e2 _ => by simp [main_run, h], ?_⟩
    intro l o hmem
    simp [main_run, h] at hmem
  | ok location =>
    refine ⟨by simp [main_run, h], fun e2 he2 => by simp [h] at he2, ?_⟩
    intro l o hmem
    simp [main_run, h] at hmem
    obtain ⟨hl, ho⟩ := hmem
    subst hl
    subst ho
    exact ⟨rfl, rfl⟩

/-- Witness for C6: with no location configured, the run performs only the
resolution step and exits with failure. -/
theorem main_run_fail_fast_witness :
    main_run
      { help := false, table := none, tenant := none
      , clientid := none, clientsecret := none } envEmpty convertOk =
      ([Event.resolveLocation], false) :=
  (main_run_fail_fast _ envEmpty convertOk).2.1
    ConfigError.missingLocation rfl

/-- C7 as stated is false: an explicitly-set empty location resolves
successfully to the empty string. -/
theorem table_location_nonempty_counterexample :
    ¬ (∀ (flags : Flags) (env : Env) (r : String),
        table_location flags env = Except.ok r → r ≠ "") := by
  intro h
  exact h { help := false, table := some "", tenant := none
          , clientid := none, clientsecret := none }
    envEmpty "" rfl rfl

/-- C7 amended: whenever `table_location` succeeds on a snapshot whose
explicit location, if present, is non-empty, under an environment whose
`TABLE_LOCATION`, if set, is non-empty, the resolved location is
non-empty. -/
theorem table_location_nonempty (flags : Flags) (env : Env)
    (hf : ∀ l, flags.table = some l → l ≠ "")
    (he : ∀ v, env "TABLE_LOCATION" = some v → v ≠ "")
    (r : String) (h : table_location flags env = Except.ok r) : r ≠ "" := by
  cases ht : flags.table with
  | none =>
    cases hev : env "TABLE_LOCATION" with
    | none => simp [table_location, env_var, ht, hev] at h
    | some v =>
      simp [table_location, env_var, ht, hev] at h
      exact h ▸ he v hev
  | some path =>
    simp [table_location, ht] at h
    exact h ▸ hf path ht

/-- Witness for C7 amended: a non-empty explicit location under an empty
environment yields a non-empty resolved location. -/
theorem table_location_nonempty_witness :
    "s3://bucket/table" ≠ "" :=
  table_location_nonempty
    { help := false, table := some "s3://bucket/table", tenant := none
    , clientid := none, clientsecret := none } envEmpty
    (fun l hl => by injection hl with h2; exact h2 ▸ (by decide))
    (fun v hv => by simp [envEmpty] at hv)
    "s3://bucket/table" rfl

/-- C8: in the state-passing model of the `&Flags` borrow, both resolver
functions return the snapshot unchanged, and their value components agree
with the pure embeddings. -/
theorem resolvers_preserve_snapshot (flags : Flags) (env : Env) :
    (table_location_run flags env).2 = flags ∧
    (storage_options_run flags).2 = flags ∧
    (table_location_run flags env).1 = table_location flags env ∧
    (storage_options_run flags).1 = storage_options flags := by
  refine ⟨?_, ?_, ?_, ?_⟩
  · cases ht : flags.table with
    | none =>
      cases he : env_var env "TABLE_LOCATION" with
      | error e => simp [table_location_run, ht, he]
      | ok v => simp [table_location_run, ht, he]
    | some path => simp [table_location_run, ht]
  · by_cases h : flags.clientid.isNone || flags.clientsecret.isNone ||
      flags.tenant.isNone
    · simp [storage_options_run, h]
    · simp [storage_options_run, h]
  · cases ht : flags.table with
    | none =>
      cases he : env_var env "TABLE_LOCATION" with
      | error e => simp [table_location_run, table_location, ht, he]
      | ok v => simp [table_location_run, table_location, ht, he]
    | some path => simp [table_location_run, table_location, ht]
  · by_cases h : flags.clientid.isNone || flags.clientsecret.isNone ||
      flags.tenant.isNone
    · simp [storage_options_run, storage_options, h]
    · simp [storage_options_run, storage_options, h]

/-- C9: an explicitly-set empty location is treated as present: the
resolver returns the empty string, whatever the environment holds. -/
theorem table_location_explicit_empty (flags : Flags) (env : Env)
    (hl : flags.table = some "") :
    table_location flags env = Except.ok "" := by
  simp [table_location, hl]

/-- Witness for C9: an empty explicit location wins even when
`TABLE_LOCATION` is set. -/
theorem table_location_explicit_empty_witness :
    table_location
      { help := false, table := some "", tenant := none
      , clientid := none, clientsecret := none }
      (envTable "s3://env-bucket/table") = Except.ok "" :=
  table_location_explicit_empty _ _ rfl

/-- C10: the credential assembler is deterministic and independent of the
process environment: two invocations on equal snapshots, under any two
environments, return equal results. -/
theorem storage_options_env_independent (f1 f2 : Flags) (e1 e2 : Env)
    (h : f1 = f2) :
    storage_optionsAmbient f1 e1 = storage_optionsAmbient f2 e2 := by
  subst h
  rfl

/-- Witness for C10: the default snapshot yields the same credentials under
an empty environment and one with `TABLE_LOCATION` set. -/
theorem storage_options_env_independent_witness :
    storage_optionsAmbient Flags.default envEmpty =
      storage_optionsAmbient Flags.default (envTable "x") :=
  storage_options_env_independent Flags.default Flags.default envEmpty
    (envTable "x") rfl
